import Mathlib

/-!
Verification of the Proliphix thermostat client (`proliphix/proliphix.py`).

The Python module is shallowly embedded below.  Conventions of the embedding:

* Python dictionaries become association lists; dictionary assignment is
  `setDataL` (overwrite the first binding or append) and lookup is `lookupD`.
* Cache values are `PValue`: either a raw string (as parsed from a device
  response) or a Python `int` (as written by the code itself).
* Python numbers handed to setters are modelled as exact rationals; the
  Python `int(...)` truncation toward zero becomes `pyTrunc`.
* `requests.post` is modelled by a transport oracle `Net` mapping a request
  to either a response body or a transport error.  Each operation returns an
  `Outcome`: the result (success or the raised exception), the final object
  state (Python mutations survive a raised exception), and the list of HTTP
  requests issued, in order.
* `time.time()`, `time.timezone`, `time.altzone` and
  `time.localtime().tm_isdst` become the fields of a `Clock` parameter.
-/

/-- A cache value: raw device string or an `int` written by the client code. -/
inductive PValue where
  | str (s : String)
  | int (n : Int)
deriving DecidableEq, Repr

/-- An HTTP POST request: URL, basic-auth credentials, and form body. -/
structure HttpReq where
  url : String
  user : String
  passwd : String
  body : String
deriving DecidableEq, Repr

/-- Exceptions the embedded code can raise. -/
inductive Err where
  | netErr
  | valueError
  | keyError (k : String)
deriving DecidableEq, Repr

/-- The transport oracle: the response body `requests.post` returns for a
request, or `none` when the transport raises (connection failure, timeout). -/
def Net : Type := HttpReq → Option String

/-- Host clock facts read by `_clock_drift`. -/
structure Clock where
  now : Int
  timezone : Int
  altzone : Int
  tm_isdst : Int
deriving DecidableEq, Repr

/-- The `OIDS` registry, in source order. -/
def OIDS : List (String × String) :=
  [("1.2", "DevName"),
   ("1.8", "SerialNum"),
   ("1.10.9", "SiteName"),
   ("2.5.1", "Time"),
   ("2.7.1", "ModelName"),
   ("4.1.1", "HvacMode"),
   ("4.1.2", "HvacState"),
   ("4.1.3", "FanMode"),
   ("4.1.4", "FanState"),
   ("4.1.5", "SetbackHeat"),
   ("4.1.6", "SetbackCool"),
   ("4.1.11", "CurrentClass"),
   ("4.1.13", "AverageTemp"),
   ("4.1.14", "RelHumidity"),
   ("4.5.1", "Heat1Usage"),
   ("4.5.3", "Cool1Usage"),
   ("4.5.5", "FanUsage"),
   ("4.5.6", "LastUsageReset")]

def HVAC_MODE_OFF : Int := 1

def HVAC_MODE_HEAT : Int := 2

def HVAC_MODE_COOL : Int := 3

def HVAC_MOVE_AUTO : Int := 4

/-- Dictionary lookup (`d.get(k)` / `d[k]` before the KeyError wrapping). -/
def lookupD {β : Type} : List (String × β) → String → Option β
  | [], _ => none
  | (k', v') :: rest, k => if k' = k then some v' else lookupD rest k

/-- Dictionary assignment `d[k] = v`: overwrite the first binding or append. -/
def setDataL : List (String × PValue) → String → PValue → List (String × PValue)
  | [], k, v => [(k, v)]
  | (k', v') :: rest, k, v =>
      if k' = k then (k, v) :: rest else (k', v') :: setDataL rest k v

/-- `_get_oid(name)`: first oid in the registry whose value equals `name`. -/
def _get_oid (name : String) : Option String :=
  (OIDS.find? (fun kv => kv.2 == name)).map Prod.fst

/-- Strict lexicographic order on char lists by code point, as Python
compares strings. -/
def lexLt : List Char → List Char → Bool
  | _, [] => false
  | [], _ :: _ => true
  | a :: as, b :: bs =>
      if a.toNat < b.toNat then true
      else if b.toNat < a.toNat then false
      else lexLt as bs

/-- Python string `<=`. -/
def strLe (s t : String) : Bool := !(lexLt t.toList s.toList)

/-- Python `s[n:]`. -/
def strDrop (s : String) (n : Nat) : String := (s.toList.drop n).asString

/-- Split a char list on a separator char; always returns a nonempty list. -/
def splitOnChar (sep : Char) : List Char → List (List Char)
  | [] => [[]]
  | c :: rest =>
      match splitOnChar sep rest with
      | [] => [[]]
      | r :: rs => if c = sep then [] :: r :: rs else (c :: r) :: rs

/-- Python `s.split(sep)` for a one-char separator. -/
def pySplit (s : String) (sep : Char) : List String :=
  (splitOnChar sep s.toList).map List.asString

/-- Insert a string into a sorted list (helper for `sorted`). -/
def strInsert (x : String) : List String → List String
  | [] => [x]
  | y :: ys => if strLe x y then x :: y :: ys else y :: strInsert x ys

/-- Python `sorted` on strings: lexicographic insertion sort. -/
def strSort : List String → List String
  | [] => []
  | x :: xs => strInsert x (strSort xs)

/-- `_all_oids()`: the bulk-read query string over the sorted registry keys. -/
def _all_oids : String :=
  "&".intercalate ((strSort (OIDS.map Prod.fst)).map (fun x => "OID" ++ x ++ "="))

/-- Digits of a string as a natural number (caller checks `isDigit`). -/
def digitsToNat (cs : List Char) : Nat :=
  cs.foldl (fun acc c => 10 * acc + (c.toNat - 48)) 0

/-- Python `int(s)` on a string: optional sign, then decimal digits. -/
def pyIntOfString (s : String) : Option Int :=
  match s.toList with
  | '-' :: rest =>
      if rest ≠ [] ∧ rest.all Char.isDigit then some (-(digitsToNat rest : Int)) else none
  | '+' :: rest =>
      if rest ≠ [] ∧ rest.all Char.isDigit then some (digitsToNat rest : Int) else none
  | cs =>
      if cs ≠ [] ∧ cs.all Char.isDigit then some (digitsToNat cs : Int) else none

/-- Python `int(v)` on a cache value. -/
def pyInt (v : PValue) : Except Err Int :=
  match v with
  | .int n => .ok n
  | .str s =>
      match pyIntOfString s with
      | some n => .ok n
      | none => .error .valueError

/-- Python `int(q)` on a number: truncation toward zero; real-valued
Python numbers are modelled as exact rationals. -/
def pyTrunc (q : ℚ) : Int := q.num.tdiv (q.den : Int)

/-- Python `float(s)` on a string: optional sign, digits, optional fraction. -/
def pyFloatOfString (s : String) : Option ℚ :=
  match pySplit s '.' with
  | [a] => (pyIntOfString a).map (fun n => (n : ℚ))
  | [a, b] =>
      let signDigits : Bool × List Char :=
        match a.toList with
        | '-' :: rest => (true, rest)
        | '+' :: rest => (false, rest)
        | cs => (false, cs)
      let ds := signDigits.2
      let fs := b.toList
      if ds.all Char.isDigit ∧ fs.all Char.isDigit ∧ (ds ≠ [] ∨ fs ≠ []) then
        let mag : ℚ := (digitsToNat ds : ℚ) + (digitsToNat fs : ℚ) / ((10 : ℚ) ^ fs.length)
        some (if signDigits.1 then -mag else mag)
      else none
  | _ => none

/-- Python `float(v)` on a cache value. -/
def pyFloat (v : PValue) : Except Err ℚ :=
  match v with
  | .int n => .ok (n : ℚ)
  | .str s =>
      match pyFloatOfString s with
      | some q => .ok q
      | none => .error .valueError

/-- Python `"%s" % v`. -/
def pyStr (v : PValue) : String :=
  match v with
  | .str s => s
  | .int n => toString n

/-- The `PDP` object: constructor arguments plus the `_data` cache. -/
structure PDP where
  host : String
  user : String
  passwd : String
  data : List (String × PValue)
deriving DecidableEq, Repr

/-- The observable outcome of one operation: result (with any raised
exception), final object state, and the HTTP requests issued in order. -/
structure Outcome where
  res : Except Err Unit
  pdp : PDP
  reqs : List HttpReq
deriving Repr

/-- `self._data[k]`, raising `KeyError` when absent. -/
def getData (p : PDP) (k : String) : Except Err PValue :=
  match lookupD p.data k with
  | some v => .ok v
  | none => .error (.keyError k)

/-- `urlencode(data)` for a dict of int values: keys here are `OID<digits
and dots>` and values are ints, on which quoting is the identity. -/
def urlencodeInt (data : List (String × Int)) : String :=
  "&".intercalate (data.map (fun kv => kv.1 ++ "=" ++ toString kv.2))

/-- `PDP._set(**kwargs)`: filter by registry, build the form, POST it. -/
def PDP._set (net : Net) (p : PDP) (kwargs : List (String × Int)) : Outcome :=
  let data := kwargs.filterMap (fun kv => ( _get_oid kv.1).map (fun oid => ("OID" ++ oid, kv.2)))
  let url := "http://" ++ p.host ++ "/pdp"
  let form_data := urlencodeInt data ++ "&submit=Submit"
  let req : HttpReq := ⟨url, p.user, p.passwd, form_data⟩
  match net req with
  | none => ⟨.error .netErr, p, [req]⟩
  | some _ => ⟨.ok (), p, [req]⟩

/-- `PDP._clock_drift()`.  The cache entry `ActualTime` is set to the
DST-adjusted `now`, so the `drift` read below equals `now - int(Time)`. -/
def PDP._clock_drift (net : Net) (clk : Clock) (p : PDP) : Outcome :=
  let now := clk.now
  let is_dst := clk.tm_isdst
  let set_now := now - clk.timezone
  let now := if is_dst = 1 then now - clk.altzone else now - clk.timezone
  let p := { p with data := setDataL p.data "ActualTime" (.int now) }
  match getData p "Time" with
  | .error e => ⟨.error e, p, []⟩
  | .ok v =>
      match pyInt v with
      | .error e => ⟨.error e, p, []⟩
      | .ok t =>
          let drift := now - t
          if 60 < drift.natAbs then PDP._set net p [("Time", set_now)]
          else ⟨.ok (), p, []⟩

/-- The response-parsing loop of `update()`: for each segment, unpack
`oid, value = line.split('=')` (a `ValueError` unless exactly two parts),
strip the `OID` prefix, and store the raw value under the registry name.
On error, mutations made before the bad segment survive. -/
def parseBody : List String → PDP → Except (Err × PDP) PDP
  | [], p => .ok p
  | line :: rest, p =>
      if line = "" then parseBody rest p
      else
        match pySplit line '=' with
        | [oid, value] =>
            match lookupD OIDS (strDrop oid 3) with
            | some const =>
                parseBody rest { p with data := setDataL p.data const (.str value) }
            | none => parseBody rest p
        | _ => .error (.valueError, p)

/-- `PDP.update()`: bulk read, seed `Time`, parse, then clock-drift check. -/
def PDP.update (net : Net) (clk : Clock) (p : PDP) : Outcome :=
  let url := "http://" ++ p.host ++ "/get"
  let req : HttpReq := ⟨url, p.user, p.passwd, _all_oids⟩
  match net req with
  | none => ⟨.error .netErr, p, [req]⟩
  | some text =>
      let p := { p with data := setDataL p.data "Time" (.int 0) }
      match parseBody (pySplit text '&') p with
      | .error ep => ⟨.error ep.1, ep.2, [req]⟩
      | .ok p =>
          let out := PDP._clock_drift net clk p
          ⟨out.res, out.pdp, req :: out.reqs⟩

/-- `PDP.is_cooling`. -/
def PDP.is_cooling (p : PDP) : Except Err Bool := do
  let v ← getData p "HvacMode"
  let n ← pyInt v
  .ok (n = HVAC_MODE_COOL)

/-- `PDP.is_heating`. -/
def PDP.is_heating (p : PDP) : Except Err Bool := do
  let v ← getData p "HvacMode"
  let n ← pyInt v
  .ok (n = HVAC_MODE_HEAT)

/-- `PDP.hvac_mode` getter. -/
def PDP.hvac_mode (p : PDP) : Except Err Int := do
  let v ← getData p "HvacMode"
  pyInt v

/-- `PDP.hvac_mode` setter. -/
def PDP.hvac_mode_set (net : Net) (p : PDP) (val : ℚ) : Outcome :=
  let n := pyTrunc val
  let p := { p with data := setDataL p.data "HvacMode" (.int n) }
  PDP._set net p [("HvacMode", n)]

/-- `PDP.cur_temp`. -/
def PDP.cur_temp (p : PDP) : Except Err ℚ := do
  let v ← getData p "AverageTemp"
  let q ← pyFloat v
  .ok (q / 10)

/-- `PDP.humidity`. -/
def PDP.humidity (p : PDP) : Except Err Int := do
  let v ← getData p "RelHumidity"
  pyInt v

/-- `PDP.setback_heat` getter. -/
def PDP.setback_heat (p : PDP) : Except Err ℚ := do
  let v ← getData p "SetbackHeat"
  let q ← pyFloat v
  .ok (q / 10)

/-- `PDP.setback_heat` setter. -/
def PDP.setback_heat_set (net : Net) (p : PDP) (val : ℚ) : Outcome :=
  let n := pyTrunc (val * 10)
  let p := { p with data := setDataL p.data "SetbackHeat" (.int n) }
  PDP._set net p [("SetbackHeat", n)]

/-- `PDP.setback_cool` getter. -/
def PDP.setback_cool (p : PDP) : Except Err ℚ := do
  let v ← getData p "SetbackCool"
  let q ← pyFloat v
  .ok (q / 10)

/-- `PDP.setback_cool` setter. -/
def PDP.setback_cool_set (net : Net) (p : PDP) (val : ℚ) : Outcome :=
  let n := pyTrunc (val * 10)
  let p := { p with data := setDataL p.data "SetbackCool" (.int n) }
  PDP._set net p [("SetbackCool", n)]

/-- `PDP.hvac_state` getter. -/
def PDP.hvac_state (p : PDP) : Except Err Int := do
  let v ← getData p "HvacState"
  pyInt v

/-- `PDP.hvac_state` setter. -/
def PDP.hvac_state_set (net : Net) (p : PDP) (val : ℚ) : Outcome :=
  let n := pyTrunc val
  let p := { p with data := setDataL p.data "HvacState" (.int n) }
  PDP._set net p [("HvacState", n)]

/-- `PDP.name`: `"%s:%s" % (SiteName, DevName)`. -/
def PDP.name (p : PDP) : Except Err String := do
  let a ← getData p "SiteName"
  let b ← getData p "DevName"
  .ok (pyStr a ++ ":" ++ pyStr b)

/-- `PDP.serial_num`: the raw cache value. -/
def PDP.serial_num (p : PDP) : Except Err PValue :=
  getData p "SerialNum"

/-- `PDP.model`: the raw cache value. -/
def PDP.model (p : PDP) : Except Err PValue :=
  getData p "ModelName"

/-- Python `v == "2"` for a cache value: an int never equals a string. -/
def pvEqStrTwo (v : PValue) : Bool :=
  match v with
  | .str s => s = "2"
  | .int _ => false

/-- `PDP.fan_state`. -/
def PDP.fan_state (p : PDP) : Except Err String := do
  let v ← getData p "FanState"
  .ok (if pvEqStrTwo v then "On" else "Off")

/-- `PDP.fan_mode` getter. -/
def PDP.fan_mode (p : PDP) : Except Err Int := do
  let v ← getData p "FanMode"
  pyInt v

/-- `PDP.fan_mode` setter. -/
def PDP.fan_mode_set (net : Net) (p : PDP) (val : ℚ) : Outcome :=
  let n := pyTrunc val
  let p := { p with data := setDataL p.data "FanMode" (.int n) }
  PDP._set net p [("FanMode", n)]

/-- Is a cache value a raw string (as opposed to an `int` the code wrote)? -/
def PValue.isStr : PValue → Bool
  | .str _ => true
  | .int _ => false

/-- A transport that always succeeds with an empty response body. -/
def netOk : Net := fun _ => some ""

/-- A transport that always raises. -/
def netFail : Net := fun _ => none

/-- A transport whose bulk-read response holds a value containing `=`. -/
def netEqVal : Net := fun _ => some "OID1.2=a=b"

/-- A concrete host clock: UTC, not in DST. -/
def clk0 : Clock := ⟨1000, 0, 0, 0⟩

/-- A concrete host clock in DST, with distinct standard and DST offsets. -/
def clkDst : Clock := ⟨1000, 5, 0, 1⟩

/-- A freshly constructed client. -/
def pdp0 : PDP := ⟨"h", "u", "pw", []⟩

/-- A client whose cache holds a device-reported setback heat. -/
def pdp5 : PDP := ⟨"h", "u", "pw", [("SetbackHeat", PValue.str "650")]⟩

/-- A client whose cache holds a device time of zero. -/
def pdpT : PDP := ⟨"h", "u", "pw", [("Time", PValue.str "0")]⟩

/-- The bulk-read request `update()` issues. -/
def getReq (p : PDP) : HttpReq :=
  ⟨"http://" ++ p.host ++ "/get", p.user, p.passwd, _all_oids⟩

/-- The corrective time-write request the clock-drift step issues. -/
def timeWriteReq (p : PDP) (clk : Clock) : HttpReq :=
  ⟨"http://" ++ p.host ++ "/pdp", p.user, p.passwd,
    "OID2.5.1=" ++ toString (clk.now - clk.timezone) ++ "&submit=Submit"⟩

/-- A transport that answers the `h` client's bulk read with an empty body
and raises on every other request, including the corrective write. -/
def netGetOk : Net := fun r => if r.url = "http://h/get" then some "" else none

theorem lookupD_setDataL_self (d : List (String × PValue)) (k : String) (v : PValue) :
    lookupD (setDataL d k v) k = some v := by
  induction d with
  | nil => simp [setDataL, lookupD]
  | cons kv rest ih =>
      obtain ⟨k', v'⟩ := kv
      by_cases h : k' = k
      · simp [setDataL, h, lookupD]
      · simp [setDataL, h, lookupD, ih]

theorem lookupD_setDataL_ne (d : List (String × PValue)) (k k' : String) (v : PValue)
    (h : k' ≠ k) : lookupD (setDataL d k v) k' = lookupD d k' := by
  induction d with
  | nil => simp [setDataL, lookupD, Ne.symm h]
  | cons kv rest ih =>
      obtain ⟨a, b⟩ := kv
      by_cases ha : a = k
      · subst ha
        simp [setDataL, lookupD, Ne.symm h]
      · simp only [setDataL, if_neg ha, lookupD]
        by_cases hb : a = k'
        · simp [hb]
        · simp [hb, ih]

theorem parseBody_preserves_key (lines : List String) (p p' : PDP)
    (hp : parseBody lines p = .ok p') (k : String)
    (hk : (lookupD p.data k).isSome) : (lookupD p'.data k).isSome := by
  induction lines generalizing p with
  | nil =>
      simp only [parseBody, Except.ok.injEq] at hp
      exact hp ▸ hk
  | cons line rest ih =>
      unfold parseBody at hp
      split at hp
      · exact ih p hp hk
      · split at hp
        · rename_i oid value
          split at hp
          · rename_i const hconst
            refine ih _ hp ?_
            by_cases hkc : k = const
            · subst hkc
              simp [lookupD_setDataL_self]
            · simpa [lookupD_setDataL_ne _ _ _ _ hkc] using hk
          · exact ih p hp hk
        · exact absurd hp (by simp)

theorem parseBody_stores_strings (lines : List String) (p p' : PDP)
    (hp : parseBody lines p = .ok p') (k : String) (v : PValue)
    (hv : lookupD p'.data k = some v) :
    lookupD p.data k = some v ∨ v.isStr = true := by
  induction lines generalizing p with
  | nil =>
      simp only [parseBody, Except.ok.injEq] at hp
      exact .inl (hp ▸ hv)
  | cons line rest ih =>
      unfold parseBody at hp
      split at hp
      · exact ih p hp
      · split at hp
        · rename_i oid value
          split at hp
          · rename_i const hconst
            rcases ih _ hp with hbase | hstr
            · by_cases hkc : k = const
              · subst hkc
                rw [lookupD_setDataL_self] at hbase
                cases hbase
                exact .inr rfl
              · rw [lookupD_setDataL_ne _ _ _ _ hkc] at hbase
                exact .inl hbase
            · exact .inr hstr
          · exact ih p hp
        · exact absurd hp (by simp)

theorem _set_outcome (net : Net) (p : PDP) (kwargs : List (String × Int)) :
    (PDP._set net p kwargs).pdp = p ∧ (PDP._set net p kwargs).reqs.length = 1 ∧
    ∀ k, (PDP._set net p kwargs).res ≠ .error (.keyError k) := by
  unfold PDP._set
  dsimp only
  split <;> simp

theorem _clock_drift_reqs_le_one (net : Net) (clk : Clock) (p : PDP) :
    (PDP._clock_drift net clk p).reqs.length ≤ 1 := by
  unfold PDP._clock_drift
  dsimp only
  repeat' split
  all_goals first
    | simp
    | exact le_of_eq (_set_outcome _ _ _).2.1

theorem pyInt_error (v : PValue) (e : Err) (h : pyInt v = .error e) :
    e = .valueError := by
  unfold pyInt at h
  split at h
  · exact absurd h (by simp)
  · split at h
    · exact absurd h (by simp)
    · exact (Except.error.inj h).symm

theorem _clock_drift_no_keyerror (net : Net) (clk : Clock) (p : PDP)
    (h : (lookupD p.data "Time").isSome) (k : String) :
    (PDP._clock_drift net clk p).res ≠ .error (.keyError k) := by
  obtain ⟨v, hv⟩ := Option.isSome_iff_exists.mp h
  have hne : ("Time" : String) ≠ "ActualTime" := by decide
  unfold PDP._clock_drift
  dsimp only
  have hg : ∀ n : Int,
      getData { host := p.host, user := p.user, passwd := p.passwd,
                data := setDataL p.data "ActualTime" (PValue.int n) } "Time" = .ok v := by
    intro n
    simp [getData, lookupD_setDataL_ne _ _ _ _ hne, hv]
  rw [hg]
  dsimp only
  cases hpy : pyInt v with
  | error e =>
      have he := pyInt_error v e hpy
      subst he
      simp
  | ok t =>
      dsimp only
      repeat' split
      all_goals first
        | exact (_set_outcome _ _ _).2.2 k
        | simp

theorem pyTrunc_eq_floor (q : ℚ) (h : 0 ≤ q) : pyTrunc q = ⌊q⌋ := by
  unfold pyTrunc
  rw [Rat.floor_def]
  exact Int.tdiv_eq_ediv (Rat.num_nonneg.mpr h) (by positivity)

theorem parseBody_error_value (lines : List String) (p : PDP) (e : Err) (p'' : PDP)
    (h : parseBody lines p = .error (e, p'')) : e = .valueError := by
  induction lines generalizing p with
  | nil => simp [parseBody] at h
  | cons line rest ih =>
      unfold parseBody at h
      split at h
      · exact ih p h
      · split at h
        · split at h
          · exact ih _ h
          · exact ih p h
        · exact ((Prod.ext_iff.mp (Except.error.inj h)).1).symm

theorem _set_reqs_eq (net : Net) (p : PDP) (kwargs : List (String × Int)) :
    (PDP._set net p kwargs).reqs =
      [⟨"http://" ++ p.host ++ "/pdp", p.user, p.passwd,
        urlencodeInt (kwargs.filterMap
          (fun kv => (_get_oid kv.1).map (fun oid => ("OID" ++ oid, kv.2)))) ++
          "&submit=Submit"⟩] := by
  unfold PDP._set
  dsimp only
  split <;> rfl

theorem _set_fail (net : Net) (hf : ∀ r, net r = none) (p : PDP)
    (kwargs : List (String × Int)) :
    (PDP._set net p kwargs).res = .error .netErr ∧ (PDP._set net p kwargs).pdp = p := by
  unfold PDP._set
  dsimp only
  rw [hf]
  exact ⟨rfl, rfl⟩

theorem setback_heat_get_int (p : PDP) (n : Int)
    (h : lookupD p.data "SetbackHeat" = some (.int n)) :
    PDP.setback_heat p = .ok ((n : ℚ) / 10) := by
  unfold PDP.setback_heat getData
  rw [h]
  rfl

theorem setback_cool_get_int (p : PDP) (n : Int)
    (h : lookupD p.data "SetbackCool" = some (.int n)) :
    PDP.setback_cool p = .ok ((n : ℚ) / 10) := by
  unfold PDP.setback_cool getData
  rw [h]
  rfl

theorem hvac_mode_get_int (p : PDP) (n : Int)
    (h : lookupD p.data "HvacMode" = some (.int n)) :
    PDP.hvac_mode p = .ok n := by
  unfold PDP.hvac_mode getData
  rw [h]
  rfl

theorem hvac_state_get_int (p : PDP) (n : Int)
    (h : lookupD p.data "HvacState" = some (.int n)) :
    PDP.hvac_state p = .ok n := by
  unfold PDP.hvac_state getData
  rw [h]
  rfl

theorem fan_mode_get_int (p : PDP) (n : Int)
    (h : lookupD p.data "FanMode" = some (.int n)) :
    PDP.fan_mode p = .ok n := by
  unfold PDP.fan_mode getData
  rw [h]
  rfl

theorem pyTrunc_num_of_den_one (q : ℚ) (h : q.den = 1) : pyTrunc q = q.num := by
  unfold pyTrunc
  rw [h]
  simp

theorem num_cast_of_den_one (q : ℚ) (h : q.den = 1) : ((q.num : ℚ)) = q := by
  have h3 := Rat.num_div_den q
  rw [h] at h3
  simpa using h3

theorem trunc_deci_cancel (v : ℚ) (hden : (v * 10).den = 1) :
    ((pyTrunc (v * 10) : ℚ)) / 10 = v := by
  rw [pyTrunc_num_of_den_one _ hden, num_cast_of_den_one _ hden]
  norm_num

/-- Claim C1, counterexample: with a transport that returns an empty body
and a host clock of 1000 seconds, a single `update()` call issues two HTTP
POSTs — the bulk read and the corrective time write that `_clock_drift`
triggers — refuting "no input under which a single update() call issues
more than one HTTP POST". -/
theorem update_two_posts_counterexample :
    (PDP.update netOk clk0 pdp0).reqs.length = 2 := by rfl

/-- Claim C1, amended: a single `update()` call performs at most two HTTP
POSTs: the bulk read, plus at most one corrective time write issued by the
clock-drift step. -/
theorem update_at_most_two_posts (net : Net) (clk : Clock) (p : PDP) :
    (PDP.update net clk p).reqs.length ≤ 2 := by
  unfold PDP.update
  dsimp only
  split
  · simp
  · split
    · simp
    · rename_i p2 hp
      dsimp only
      have h := _clock_drift_reqs_le_one net clk p2
      simp only [List.length_cons]
      omega

/-- Claim C2: the bulk-read query payload over the full 18-entry registry
equals the `&`-join, with no trailing separator, of each dotted-id
formatted as `OID{id}=`, in ascending lexicographic order of the dotted-id
strings — so `4.1.11` precedes `4.1.2` and `4.1.13` precedes `4.1.14`. -/
theorem all_oids_bulk_read_payload :
    _all_oids =
      "OID1.10.9=&OID1.2=&OID1.8=&OID2.5.1=&OID2.7.1=&OID4.1.1=&OID4.1.11=&OID4.1.13=&OID4.1.14=&OID4.1.2=&OID4.1.3=&OID4.1.4=&OID4.1.5=&OID4.1.6=&OID4.5.1=&OID4.5.3=&OID4.5.5=&OID4.5.6=" ∧
    strSort (OIDS.map Prod.fst) =
      ["1.10.9", "1.2", "1.8", "2.5.1", "2.7.1", "4.1.1", "4.1.11", "4.1.13",
       "4.1.14", "4.1.2", "4.1.3", "4.1.4", "4.1.5", "4.1.6", "4.5.1", "4.5.3",
       "4.5.5", "4.5.6"] ∧
    (strSort (OIDS.map Prod.fst)).Pairwise (fun a b => lexLt a.toList b.toList = true) ∧
    List.Perm (strSort (OIDS.map Prod.fst)) (OIDS.map Prod.fst) := by
  refine ⟨rfl, rfl, by decide, by decide⟩

/-- Claim C7: setting `setback_heat` to 69.1 issues exactly one HTTP write,
to the `/pdp` URL with the client's basic-auth credentials, whose body is
exactly `OID4.1.5=691&submit=Submit`: the degree value is multiplied by 10
and truncated to an integer, and the payload ends with the literal
`&submit=Submit` token. -/
theorem setback_heat_write_payload (net : Net) (p : PDP) :
    (PDP.setback_heat_set net p (691/10)).reqs =
      [⟨"http://" ++ p.host ++ "/pdp", p.user, p.passwd,
        "OID4.1.5=691&submit=Submit"⟩] := by
  have hn : pyTrunc ((691:ℚ)/10 * 10) = 691 := by
    rw [show ((691:ℚ)/10 * 10) = ((691 : ℤ) : ℚ) by norm_num]
    unfold pyTrunc
    rw [Rat.num_intCast, Rat.den_intCast]
    simp
  unfold PDP.setback_heat_set PDP._set
  dsimp only
  rw [hn]
  split <;> rfl

/-- Claim C9: on a freshly constructed client, before any `update()`, every
typed read accessor fails with an explicit `KeyError` naming the missing
field, rather than returning a zero or default value. -/
theorem fresh_accessors_keyerror (host user passwd : String) :
    PDP.cur_temp ⟨host, user, passwd, []⟩ = .error (.keyError "AverageTemp") ∧
    PDP.humidity ⟨host, user, passwd, []⟩ = .error (.keyError "RelHumidity") ∧
    PDP.hvac_mode ⟨host, user, passwd, []⟩ = .error (.keyError "HvacMode") ∧
    PDP.hvac_state ⟨host, user, passwd, []⟩ = .error (.keyError "HvacState") ∧
    PDP.fan_state ⟨host, user, passwd, []⟩ = .error (.keyError "FanState") ∧
    PDP.fan_mode ⟨host, user, passwd, []⟩ = .error (.keyError "FanMode") ∧
    PDP.setback_heat ⟨host, user, passwd, []⟩ = .error (.keyError "SetbackHeat") ∧
    PDP.setback_cool ⟨host, user, passwd, []⟩ = .error (.keyError "SetbackCool") ∧
    PDP.name ⟨host, user, passwd, []⟩ = .error (.keyError "SiteName") ∧
    PDP.serial_num ⟨host, user, passwd, []⟩ = .error (.keyError "SerialNum") ∧
    PDP.model ⟨host, user, passwd, []⟩ = .error (.keyError "ModelName") ∧
    PDP.is_heating ⟨host, user, passwd, []⟩ = .error (.keyError "HvacMode") ∧
    PDP.is_cooling ⟨host, user, passwd, []⟩ = .error (.keyError "HvacMode") :=
  ⟨rfl, rfl, rfl, rfl, rfl, rfl, rfl, rfl, rfl, rfl, rfl, rfl, rfl⟩

/-- Claim C10: `update()` seeds the cache entry for `Time` with a zero
default before parsing, so for every device response — including one that
omits `Time` — the clock-drift computation reads a present key: no
`update()` run can ever fail with a `KeyError`. -/
theorem update_never_keyerror (net : Net) (clk : Clock) (p : PDP) (k : String) :
    (PDP.update net clk p).res ≠ .error (.keyError k) := by
  unfold PDP.update
  dsimp only
  split
  · simp
  · split
    · rename_i ep hp
      have he := parseBody_error_value _ _ ep.1 ep.2 hp
      simp [he]
    · rename_i p2 hp
      dsimp only
      exact _clock_drift_no_keyerror net clk p2
        (parseBody_preserves_key _ _ _ hp "Time"
          (by simp [lookupD_setDataL_self])) k

/-- Claim C3: in the clock-drift step, the corrective time write is issued
if and only if the absolute drift — the DST-adjusted host time minus the
cached device `Time`, as integers — exceeds 60 seconds, and the value
written is always `set_now = now - timezone`, the standard-time value,
never the DST-adjusted one, regardless of `tm_isdst`. -/
theorem clock_drift_write_iff (net : Net) (clk : Clock) (p : PDP) (v : PValue) (t : Int)
    (hv : lookupD p.data "Time" = some v) (ht : pyInt v = .ok t) :
    ((PDP._clock_drift net clk p).reqs ≠ [] ↔
        60 < (((if clk.tm_isdst = 1 then clk.now - clk.altzone
                else clk.now - clk.timezone)) - t).natAbs) ∧
    (60 < (((if clk.tm_isdst = 1 then clk.now - clk.altzone
            else clk.now - clk.timezone)) - t).natAbs →
      (PDP._clock_drift net clk p).reqs =
        [⟨"http://" ++ p.host ++ "/pdp", p.user, p.passwd,
          "OID2.5.1=" ++ toString (clk.now - clk.timezone) ++ "&submit=Submit"⟩]) := by
  have hne : ("Time" : String) ≠ "ActualTime" := by decide
  have hg : ∀ n : Int,
      getData { host := p.host, user := p.user, passwd := p.passwd,
                data := setDataL p.data "ActualTime" (PValue.int n) } "Time" = .ok v := by
    intro n
    simp [getData, lookupD_setDataL_ne _ _ _ _ hne, hv]
  unfold PDP._clock_drift
  dsimp only
  rw [hg]
  dsimp only
  rw [ht]
  dsimp only
  by_cases hd : 60 < (((if clk.tm_isdst = 1 then clk.now - clk.altzone
      else clk.now - clk.timezone)) - t).natAbs
  · rw [if_pos hd]
    have hreq := _set_reqs_eq net
      { host := p.host, user := p.user, passwd := p.passwd,
        data := setDataL p.data "ActualTime"
          (PValue.int (if clk.tm_isdst = 1 then clk.now - clk.altzone
            else clk.now - clk.timezone)) }
      [("Time", clk.now - clk.timezone)]
    refine ⟨⟨fun _ => hd, fun _ => ?_⟩, fun _ => ?_⟩
    · rw [hreq]
      simp
    · rw [hreq]
      rfl
  · rw [if_neg hd]
    dsimp only
    constructor
    · simp [hd]
    · exact fun h => absurd h hd

/-- Claim C3, witness: host clock 1000 with standard offset 5, DST offset 0
and `tm_isdst = 1`, device `Time` `"0"`: the drift (1000) exceeds 60, the
write is issued, and it carries the standard-time value 995, not the
DST-adjusted 1000. -/
theorem clock_drift_write_iff_witness :
    (PDP._clock_drift netOk clkDst pdpT).reqs =
      [⟨"http://h/pdp", "u", "pw", "OID2.5.1=995&submit=Submit"⟩] :=
  ((clock_drift_write_iff netOk clkDst pdpT (.str "0") 0 rfl rfl).2 (by decide)).trans
    (by rfl)

/-- Claim C4, counterexample: a response whose single segment is
`OID1.2=a=b` — a value containing `=` — makes `update()` raise a
`ValueError` from the strict two-way unpacking of `line.split('=')`, and
nothing is stored for `DevName`: parsing does not succeed with the
remainder after the first `=` as the value. -/
theorem update_eq_in_value_fails :
    (PDP.update netEqVal clk0 pdp0).res = .error .valueError ∧
    lookupD (PDP.update netEqVal clk0 pdp0).pdp.data "DevName" = none :=
  ⟨rfl, rfl⟩

/-- Claim C4, amended: every non-empty `&`-separated segment is split on
every `=`; a segment splitting into exactly one key and one value is
stored, while a segment whose value itself contains `=` (three or more
parts — or one with no `=` at all) makes the parse raise `ValueError`
instead of storing the remainder after the first `=`. -/
theorem parse_segment_strict (p : PDP) (rest : List String) (line : String)
    (hne : line ≠ "") :
    (∀ oid value, pySplit line '=' = [oid, value] →
        parseBody (line :: rest) p =
          parseBody rest
            (match lookupD OIDS (strDrop oid 3) with
             | some const => { p with data := setDataL p.data const (.str value) }
             | none => p)) ∧
    ((pySplit line '=').length ≠ 2 →
        parseBody (line :: rest) p = .error (.valueError, p)) := by
  constructor
  · intro oid value hsplit
    conv_lhs => rw [parseBody]
    rw [if_neg hne, hsplit]
    dsimp only
    cases lookupD OIDS (strDrop oid 3) <;> rfl
  · intro hlen
    unfold parseBody
    rw [if_neg hne]
    cases hsplit : pySplit line '=' with
    | nil => rfl
    | cons a as =>
        cases as with
        | nil => rfl
        | cons b bs =>
            cases bs with
            | nil => exact absurd (by rw [hsplit]; rfl) hlen
            | cons c cs => rfl

/-- Claim C4, amended, witness: the segment `OID1.2=a=b` splits into three
parts, so parsing it raises `ValueError` with the cache untouched. -/
theorem parse_segment_strict_witness :
    parseBody ["OID1.2=a=b"] pdp0 = .error (.valueError, pdp0) :=
  (parse_segment_strict pdp0 [] "OID1.2=a=b" (by decide)).2 (by decide)

/-- Claim C5, counterexample: starting from a cache holding the
device-reported `SetbackHeat` `"650"`, a `setback_heat` assignment whose
HTTP write fails still mutates the cache: the error is surfaced, but the
state after the failed setter differs from the state before it, refuting
"the cache is exactly equal to its state before the failed operation". -/
theorem setter_mutates_cache_on_failure :
    (PDP.setback_heat_set netFail pdp5 (691/10)).res = .error .netErr ∧
    (PDP.setback_heat_set netFail pdp5 (691/10)).pdp ≠ pdp5 := by
  constructor
  · rfl
  · intro h
    have hd := congrArg (fun q => lookupD q.data "SetbackHeat") h
    simp [pdp5, PDP.setback_heat_set, PDP._set, netFail, setDataL, lookupD] at hd

/-- Claim C5, amended: a transport failure is surfaced as an error to the
caller of `update()` or of any setter, but the cache is only guaranteed
unchanged when the failing call is the bulk read of `update()`.  Mutations
made before the failing call survive: an `update()` whose corrective
time write fails keeps the `Time` seed, the parsed fields and
`ActualTime`, and a failed setter keeps its optimistic cache write — the
cache equals the prior cache with the target field set to the encoded new
value, not the pre-call state. -/
theorem transport_error_surfaced (net : Net) (clk : Clock) (p : PDP) (v : ℚ) :
    (net (getReq p) = none →
      (PDP.update net clk p).res = .error .netErr ∧
      (PDP.update net clk p).pdp = p) ∧
    (net (getReq p) = some "" → net (timeWriteReq p clk) = none →
      60 < (if clk.tm_isdst = 1 then clk.now - clk.altzone
            else clk.now - clk.timezone).natAbs →
      (PDP.update net clk p).res = .error .netErr ∧
      (PDP.update net clk p).pdp.data =
        setDataL (setDataL p.data "Time" (.int 0)) "ActualTime"
          (.int (if clk.tm_isdst = 1 then clk.now - clk.altzone
                 else clk.now - clk.timezone))) ∧
    ((∀ r, net r = none) →
      ((PDP.setback_heat_set net p v).res = .error .netErr ∧
        (PDP.setback_heat_set net p v).pdp.data =
          setDataL p.data "SetbackHeat" (.int (pyTrunc (v * 10)))) ∧
      ((PDP.setback_cool_set net p v).res = .error .netErr ∧
        (PDP.setback_cool_set net p v).pdp.data =
          setDataL p.data "SetbackCool" (.int (pyTrunc (v * 10)))) ∧
      ((PDP.hvac_mode_set net p v).res = .error .netErr ∧
        (PDP.hvac_mode_set net p v).pdp.data =
          setDataL p.data "HvacMode" (.int (pyTrunc v))) ∧
      ((PDP.hvac_state_set net p v).res = .error .netErr ∧
        (PDP.hvac_state_set net p v).pdp.data =
          setDataL p.data "HvacState" (.int (pyTrunc v))) ∧
      ((PDP.fan_mode_set net p v).res = .error .netErr ∧
        (PDP.fan_mode_set net p v).pdp.data =
          setDataL p.data "FanMode" (.int (pyTrunc v)))) := by
  refine ⟨?_, ?_, ?_⟩
  · intro hget
    unfold PDP.update
    dsimp only
    rw [show (⟨"http://" ++ p.host ++ "/get", p.user, p.passwd, _all_oids⟩ : HttpReq) =
        getReq p from rfl, hget]
    exact ⟨rfl, rfl⟩
  · intro hget hwrite hd
    unfold PDP.update
    dsimp only
    rw [show (⟨"http://" ++ p.host ++ "/get", p.user, p.passwd, _all_oids⟩ : HttpReq) =
        getReq p from rfl, hget]
    dsimp only
    rw [show parseBody (pySplit "" (Char.ofNat 38))
        { p with data := setDataL p.data "Time" (PValue.int 0) } =
        .ok { p with data := setDataL p.data "Time" (PValue.int 0) } from rfl]
    dsimp only
    unfold PDP._clock_drift
    dsimp only
    have hne : ("Time" : String) ≠ "ActualTime" := by decide
    have hg : ∀ n : Int,
        getData { host := p.host, user := p.user, passwd := p.passwd,
                  data := setDataL (setDataL p.data "Time" (PValue.int 0)) "ActualTime" (PValue.int n) } "Time" = .ok (PValue.int 0) := by
      intro n
      simp [getData, lookupD_setDataL_ne _ _ _ _ hne, lookupD_setDataL_self]
    rw [hg]
    dsimp only
    rw [show pyInt (PValue.int 0) = .ok 0 from rfl]
    dsimp only
    rw [Int.sub_zero, if_pos hd]
    unfold PDP._set
    dsimp only
    rw [show (⟨"http://" ++ p.host ++ "/pdp", p.user, p.passwd,
        urlencodeInt (List.filterMap
          (fun kv => Option.map (fun oid => ("OID" ++ oid, kv.2)) (_get_oid kv.1))
          [("Time", clk.now - clk.timezone)]) ++ "&submit=Submit"⟩ : HttpReq) =
        timeWriteReq p clk from rfl, hwrite]
    exact ⟨rfl, rfl⟩
  · intro hf
    refine ⟨⟨?_, ?_⟩, ⟨?_, ?_⟩, ⟨?_, ?_⟩, ⟨?_, ?_⟩, ⟨?_, ?_⟩⟩
    · unfold PDP.setback_heat_set
      exact (_set_fail net hf _ _).1
    · unfold PDP.setback_heat_set
      rw [(_set_fail net hf _ _).2]
    · unfold PDP.setback_cool_set
      exact (_set_fail net hf _ _).1
    · unfold PDP.setback_cool_set
      rw [(_set_fail net hf _ _).2]
    · unfold PDP.hvac_mode_set
      exact (_set_fail net hf _ _).1
    · unfold PDP.hvac_mode_set
      rw [(_set_fail net hf _ _).2]
    · unfold PDP.hvac_state_set
      exact (_set_fail net hf _ _).1
    · unfold PDP.hvac_state_set
      rw [(_set_fail net hf _ _).2]
    · unfold PDP.fan_mode_set
      exact (_set_fail net hf _ _).1
    · unfold PDP.fan_mode_set
      rw [(_set_fail net hf _ _).2]

/-- Claim C5, amended, witness: a transport that succeeds on the bulk read
but fails on the corrective write makes `update()` surface the error while
the cache keeps the `Time` seed and `ActualTime` — not its prior state. -/
theorem transport_error_surfaced_witness :
    (PDP.update netGetOk clk0 pdp0).res = .error .netErr ∧
    (PDP.update netGetOk clk0 pdp0).pdp.data =
      setDataL (setDataL pdp0.data "Time" (.int 0)) "ActualTime" (.int 1000) := by
  have h := (transport_error_surfaced netGetOk clk0 pdp0 0).2.1 rfl rfl (by decide)
  exact ⟨h.1, h.2.trans (by rfl)⟩

/-- Claim C6, counterexample: setting `setback_heat` to 69.15 and reading
it back returns 69.1, not 69.15 — the setter truncates to decidegrees, so
the getter does not return the just-set value for every accepted value. -/
theorem setback_heat_not_roundtrip :
    PDP.setback_heat (PDP.setback_heat_set netOk pdp0 (1383/20)).pdp = .ok (691/10) ∧
    (691/10 : ℚ) ≠ 1383/20 := by
  constructor
  · have hn : pyTrunc ((1383:ℚ)/20 * 10) = 691 := by
      rw [pyTrunc_eq_floor _ (by norm_num)]
      norm_num
    have hpdp : (PDP.setback_heat_set netOk pdp0 (1383/20)).pdp =
        { pdp0 with data := setDataL pdp0.data "SetbackHeat" (.int (pyTrunc ((1383:ℚ)/20 * 10))) } := by
      unfold PDP.setback_heat_set
      exact (_set_outcome _ _ _).1
    rw [hpdp, hn]
    have hget := setback_heat_get_int
      { pdp0 with data := setDataL pdp0.data "SetbackHeat" (.int 691) } 691
      (by simp [lookupD_setDataL_self])
    rw [hget]
    norm_num
  · norm_num

/-- Claim C6, amended: reading an accessor immediately after its
same-named setter (no network read) returns exactly what the setter
stored: for the temperature setters (`setback_heat`, `setback_cool`) the
decidegree truncation divided by ten — equal to the just-set `v`
precisely when `v * 10` is an integer, and different otherwise (e.g.
69.15 reads back as 69.1) — and for the enum setters (`hvac_mode`,
`hvac_state`, `fan_mode`) the integer truncation of `v` — equal to the
just-set `v` precisely when `v` is an integer. -/
theorem setter_getter_roundtrip (net : Net) (p : PDP) (v : ℚ) :
    (PDP.setback_heat (PDP.setback_heat_set net p v).pdp =
        .ok ((pyTrunc (v * 10) : ℚ) / 10) ∧
      ((v * 10).den = 1 →
        PDP.setback_heat (PDP.setback_heat_set net p v).pdp = .ok v)) ∧
    (PDP.setback_cool (PDP.setback_cool_set net p v).pdp =
        .ok ((pyTrunc (v * 10) : ℚ) / 10) ∧
      ((v * 10).den = 1 →
        PDP.setback_cool (PDP.setback_cool_set net p v).pdp = .ok v)) ∧
    (PDP.hvac_mode (PDP.hvac_mode_set net p v).pdp = .ok (pyTrunc v) ∧
      (v.den = 1 →
        PDP.hvac_mode (PDP.hvac_mode_set net p v).pdp = .ok v.num)) ∧
    (PDP.hvac_state (PDP.hvac_state_set net p v).pdp = .ok (pyTrunc v) ∧
      (v.den = 1 →
        PDP.hvac_state (PDP.hvac_state_set net p v).pdp = .ok v.num)) ∧
    (PDP.fan_mode (PDP.fan_mode_set net p v).pdp = .ok (pyTrunc v) ∧
      (v.den = 1 →
        PDP.fan_mode (PDP.fan_mode_set net p v).pdp = .ok v.num)) := by
  have hsh : (PDP.setback_heat_set net p v).pdp =
      { p with data := setDataL p.data "SetbackHeat" (.int (pyTrunc (v * 10))) } := by
    unfold PDP.setback_heat_set
    exact (_set_outcome _ _ _).1
  have hsc : (PDP.setback_cool_set net p v).pdp =
      { p with data := setDataL p.data "SetbackCool" (.int (pyTrunc (v * 10))) } := by
    unfold PDP.setback_cool_set
    exact (_set_outcome _ _ _).1
  have hhm : (PDP.hvac_mode_set net p v).pdp =
      { p with data := setDataL p.data "HvacMode" (.int (pyTrunc v)) } := by
    unfold PDP.hvac_mode_set
    exact (_set_outcome _ _ _).1
  have hhs : (PDP.hvac_state_set net p v).pdp =
      { p with data := setDataL p.data "HvacState" (.int (pyTrunc v)) } := by
    unfold PDP.hvac_state_set
    exact (_set_outcome _ _ _).1
  have hfm : (PDP.fan_mode_set net p v).pdp =
      { p with data := setDataL p.data "FanMode" (.int (pyTrunc v)) } := by
    unfold PDP.fan_mode_set
    exact (_set_outcome _ _ _).1
  have ghs := setback_heat_get_int
    { p with data := setDataL p.data "SetbackHeat" (.int (pyTrunc (v * 10))) }
    (pyTrunc (v * 10)) (by simp [lookupD_setDataL_self])
  have gcs := setback_cool_get_int
    { p with data := setDataL p.data "SetbackCool" (.int (pyTrunc (v * 10))) }
    (pyTrunc (v * 10)) (by simp [lookupD_setDataL_self])
  have ghm := hvac_mode_get_int
    { p with data := setDataL p.data "HvacMode" (.int (pyTrunc v)) }
    (pyTrunc v) (by simp [lookupD_setDataL_self])
  have ghst := hvac_state_get_int
    { p with data := setDataL p.data "HvacState" (.int (pyTrunc v)) }
    (pyTrunc v) (by simp [lookupD_setDataL_self])
  have gfm := fan_mode_get_int
    { p with data := setDataL p.data "FanMode" (.int (pyTrunc v)) }
    (pyTrunc v) (by simp [lookupD_setDataL_self])
  refine ⟨⟨?_, ?_⟩, ⟨?_, ?_⟩, ⟨?_, ?_⟩, ⟨?_, ?_⟩, ⟨?_, ?_⟩⟩
  · rw [hsh, ghs]
  · intro hden
    rw [hsh, ghs, trunc_deci_cancel v hden]
  · rw [hsc, gcs]
  · intro hden
    rw [hsc, gcs, trunc_deci_cancel v hden]
  · rw [hhm, ghm]
  · intro hden
    rw [hhm, ghm, pyTrunc_num_of_den_one v hden]
  · rw [hhs, ghst]
  · intro hden
    rw [hhs, ghst, pyTrunc_num_of_den_one v hden]
  · rw [hfm, gfm]
  · intro hden
    rw [hfm, gfm, pyTrunc_num_of_den_one v hden]

/-- Claim C6, amended, witness: 69.1 (a whole number of decidegrees)
round-trips exactly through `setback_heat`, and the integer 2 round-trips
exactly through `hvac_mode`. -/
theorem setter_getter_roundtrip_witness :
    PDP.setback_heat (PDP.setback_heat_set netOk pdp0 (691/10)).pdp = .ok (691/10) ∧
    PDP.hvac_mode (PDP.hvac_mode_set netOk pdp0 2).pdp = .ok 2 := by
  constructor
  · exact (setter_getter_roundtrip netOk pdp0 (691/10)).1.2
      (by rw [show ((691:ℚ)/10 * 10) = ((691 : ℤ) : ℚ) by norm_num]
          exact Rat.den_intCast 691)
  · have h := (setter_getter_roundtrip netOk pdp0 2).2.2.1.2 (Rat.den_ofNat 2)
    exact h.trans (by norm_num)

/-- Claim C8, counterexample: after a `setback_heat` assignment the cache
entry for `SetbackHeat` is the Python int 691, not a string — so not every
cache entry is a raw device string. -/
theorem cache_holds_int_after_setter :
    lookupD (PDP.setback_heat_set netOk pdp0 (691/10)).pdp.data "SetbackHeat" =
      some (.int (pyTrunc ((691:ℚ)/10 * 10))) ∧
    pyTrunc ((691:ℚ)/10 * 10) = 691 ∧
    (PValue.int 691).isStr = false := by
  refine ⟨?_, ?_, rfl⟩
  · have hpdp : (PDP.setback_heat_set netOk pdp0 (691/10)).pdp =
        { pdp0 with data := setDataL pdp0.data "SetbackHeat" (.int (pyTrunc ((691:ℚ)/10 * 10))) } := by
      unfold PDP.setback_heat_set
      exact (_set_outcome _ _ _).1
    rw [hpdp]
    simp [lookupD_setDataL_self]
  · rw [show ((691:ℚ)/10 * 10) = ((691 : ℤ) : ℚ) by norm_num]
    unfold pyTrunc
    rw [Rat.num_intCast, Rat.den_intCast]
    simp

/-- Claim C8, amended: every cache entry written by response parsing is a
raw string exactly as the device returned it, but the client code itself
stores Python ints: the `Time` seed, `ActualTime`, and every
setter-written value — so not every entry of the cache is a string. -/
theorem cache_string_discipline :
    (∀ (lines : List String) (p p' : PDP), parseBody lines p = .ok p' →
        ∀ k v, lookupD p'.data k = some v →
          lookupD p.data k = some v ∨ v.isStr = true) ∧
    (∀ (net : Net) (p : PDP) (v : ℚ),
        lookupD (PDP.setback_heat_set net p v).pdp.data "SetbackHeat" =
          some (.int (pyTrunc (v * 10)))) := by
  constructor
  · exact fun lines p p' hp k v hv => parseBody_stores_strings lines p p' hp k v hv
  · intro net p v
    have hpdp : (PDP.setback_heat_set net p v).pdp =
        { p with data := setDataL p.data "SetbackHeat" (.int (pyTrunc (v * 10))) } := by
      unfold PDP.setback_heat_set
      exact (_set_outcome _ _ _).1
    rw [hpdp]
    simp [lookupD_setDataL_self]

/-- Claim C8, amended, witness: parsing the single segment `OID1.2=abc`
from a fresh client stores a value for `DevName` that is a raw string. -/
theorem cache_string_discipline_witness :
    lookupD pdp0.data "DevName" = some (.str "abc") ∨
      (PValue.str "abc").isStr = true :=
  cache_string_discipline.1 ["OID1.2=abc"] pdp0
    ⟨"h", "u", "pw", [("DevName", PValue.str "abc")]⟩ rfl "DevName" (.str "abc") rfl
